import Mathlib

/-!
Shallow embedding of BXEngine's `ScriptManager` (src/lib/scriptmanager.py).

The manager keeps a cache (`__modules`) of executed script modules keyed by
normalized filename, loads scripts on demand (`__load`), and dispatches
function calls through a fault boundary (`call`) that contains every
exception except `SystemExit`, which is logged critically and escalated to
`sys.exit(11)`.

Python effects are made explicit:
  * exceptions are values of `PyResult`, propagating through the call chain;
  * the module cache and the logger output form the state `SMState`;
  * the filesystem (`os.path.exists`), the module execution machinery
    (`importlib` + the script's top-level code) and the `APIContext`
    constructor are inputs supplied by an environment `Env`, since their
    behavior is external to scriptmanager.py.
An uncaught `PyResult.exc (.systemExit c)` escaping an operation models
process termination with exit status `c`.
-/

set_option autoImplicit false

namespace BXE

/-- Severity levels of the `Logger` (lib/logger.py, a side-effecting sink). -/
inductive Level where
  | info
  | error
  | critical
deriving DecidableEq

/-- The exception classes distinguished by scriptmanager.py's handlers:
`SystemExit` (carrying an exit status), `AttributeError` (missing attribute),
`TypeError` (e.g. calling a non-callable object), and everything else. -/
inductive Exc where
  | systemExit (code : Nat)
  | attrError
  | typeError
  | other
deriving DecidableEq

/-- Outcome of evaluating a Python expression: a value, or a raised exception
propagating to the nearest handler. -/
inductive PyResult (α : Type) where
  | ok (v : α)
  | exc (e : Exc)
deriving DecidableEq

/-- The per-script context handle (`APIContext(filename, app)`); opaque to the
manager beyond identifying its owning script path. -/
structure APIContext where
  owner : String
deriving DecidableEq

/-- Python values passed to and returned from script functions. -/
inductive Value where
  | vnat (n : Nat)
  | vstr (s : String)
  | vnone
  | vctx (c : APIContext)
deriving DecidableEq

/-- A module attribute: a callable function, or a plain data attribute
(calling the latter raises `TypeError` in Python). -/
inductive Attr where
  | callable (f : List Value → PyResult Value)
  | data (v : Value)

/-- A live Python module object: its attribute dictionary. Later bindings
shadow earlier ones, modelling `setattr` overwrite. -/
structure Module where
  attrs : List (String × Attr)

/-- `getattr(m, name)`: the attribute, or `AttributeError` when absent. -/
def getattrM (m : Module) (name : String) : PyResult Attr :=
  match m.attrs.find? (fun kv => kv.1 = name) with
  | Option.some kv => .ok kv.2
  | Option.none => .exc .attrError

/-- `setattr(m, name, a)`. -/
def setAttrM (m : Module) (name : String) (a : Attr) : Module :=
  ⟨(name, a) :: m.attrs⟩

/-- The value `_module`/`__load` hand back: a module instance, Python `False`
(script file nonexistent), or Python `None` (error while loading). -/
inductive MValue where
  | md (m : Module)
  | pyFalse
  | pyNone

/-- Mutable state of a `ScriptManager`: the `__modules` cache and the log. -/
structure SMState where
  modules : List (String × Module)
  log : List (Level × String)

/-- Append one log record (most recent first). -/
def pushLog (s : SMState) (lv : Level) (tag : String) : SMState :=
  { s with log := (lv, tag) :: s.log }

/-- Dictionary lookup in the cache (first binding wins). -/
def lookupMod : List (String × Module) → String → Option Module
  | [], _ => Option.none
  | (k, m) :: rest, key => if k = key then Option.some m else lookupMod rest key

/-- Dictionary store `d[key] = m` (new binding shadows any older one). -/
def insertMod (l : List (String × Module)) (key : String) (m : Module) :
    List (String × Module) :=
  (key, m) :: l

/-- Canonicalize one path character. -/
def normSep (c : Char) : Char := if c = '\\' then '/' else c

/-- Modelled from the spec: `normalize_path` lives in lib/util.py, which is
not under src/. The spec says logical paths use a normalized separator
("separators canonicalized"), so it is modelled as rewriting every backslash
to a forward slash. -/
def normalize_path (p : String) : String :=
  String.mk (p.toList.map normSep)

/-- `filename.split('/', 1)[1]`: everything after the first slash. Only used
under the `startswith("$COMMON$/")` guard, so a slash is always present. -/
def afterFirstSlash (p : String) : String :=
  String.mk ((p.toList.dropWhile (fun c => ¬ c = '/')).drop 1)

/-- Is `pre` a prefix of the character list? -/
def charsPrefixOf : List Char → List Char → Bool
  | [], _ => true
  | _ :: _, [] => false
  | a :: as, b :: bs => a = b && charsPrefixOf as bs

/-- `p.startswith(pre)`. -/
def strStartsWith (p pre : String) : Bool :=
  charsPrefixOf pre.toList p.toList

/-- `os.path.split(p)[-1]`: the last path component. -/
def basename (p : String) : String :=
  String.mk ((p.toList.reverse.takeWhile (fun c => ¬ c = '/')).reverse)

/-- `os.path.splitext(s)[0]`: strip the extension after the last dot, keeping
dotfiles (no stem before the dot) whole. -/
def splitextRoot (s : String) : String :=
  let rev := s.toList.reverse
  let afterDot := rev.takeWhile (fun c => ¬ c = '.')
  if afterDot.length = rev.length then s
  else
    let stem := (rev.drop (afterDot.length + 1)).reverse
    if stem = [] then s else String.mk stem

/-- The module name derived in `__load`:
`os.path.splitext(os.path.split(filename)[-1])[0]`. -/
def mnameOf (filename : String) : String :=
  splitextRoot (basename filename)

/-- The world the manager was constructed with, the filesystem, the module
execution machinery and the context-handle constructor. `execScript` takes
the derived module name and the full path and yields the executed module or
the exception its machinery / the script's top-level code raised.
`mkAPIContext` models `APIContext(filename, self.app)` (lib/apicontext.py is
not under src/): arbitrary constructor code that may itself raise. -/
structure Env where
  worldDir : String
  fsExists : String → Bool
  execScript : String → String → PyResult Module
  mkAPIContext : String → PyResult APIContext

/-- Lines 149-152 of `__load`: map a (normalized) logical path to a concrete
location — `$COMMON$/`-prefixed paths go under the shared root `common`,
everything else under the active world's directory. -/
def resolvePath (worldDir filename : String) : String :=
  if strStartsWith filename "$COMMON$/" then
    "common" ++ "/" ++ afterFirstSlash filename
  else
    worldDir ++ "/" ++ filename

/-- `ScriptManager.__load` (lines 142-177). Checks existence, executes the
script, caches the module under the normalized filename, then constructs and
attaches the `BXE` context handle. `SystemExit` anywhere inside the `try` is
logged critically and escalated to `sys.exit(11)`; any other exception is
logged and converted to Python `None`. Note the cache store happens before
the `APIContext` construction, mirroring lines 164-165. -/
def load (env : Env) (s : SMState) (filename0 : String) : PyResult MValue × SMState :=
  let filename := normalize_path filename0
  let fullpath := resolvePath env.worldDir filename
  if env.fsExists fullpath then
    match env.execScript (mnameOf filename) fullpath with
    | .ok mod =>
      let s1 : SMState := { s with modules := insertMod s.modules filename mod }
      match env.mkAPIContext filename with
      | .ok ctx =>
        let mod2 := setAttrM mod "BXE" (Attr.data (Value.vctx ctx))
        let s2 : SMState := { s1 with modules := insertMod s1.modules filename mod2 }
        (.ok (.md mod2), pushLog s2 .info "load_loaded")
      | .exc (.systemExit _) => (.exc (.systemExit 11), pushLog s1 .critical "load_sysexit")
      | .exc _ => (.ok .pyNone, pushLog s1 .error "load_error")
    | .exc (.systemExit _) => (.exc (.systemExit 11), pushLog s .critical "load_sysexit")
    | .exc _ => (.ok .pyNone, pushLog s .error "load_error")
  else
    (.ok .pyFalse, pushLog s .error "load_nosuch")

/-- `ScriptManager._module` (lines 124-140): return the cached module if the
normalized filename is a cache key, else load it. -/
def _module (env : Env) (s : SMState) (filename0 : String) : PyResult MValue × SMState :=
  let filename := normalize_path filename0
  match lookupMod s.modules filename with
  | Option.some m => (.ok (.md m), s)
  | Option.none => load env s filename

/-- `ScriptManager.__getitem__` (lines 79-87): a module instance, or Python
`None` after logging (distinguishing "no such module" from "error"). -/
def getitem (env : Env) (s : SMState) (item : String) : PyResult (Option Module) × SMState :=
  let t := _module env s item
  match t.1 with
  | .exc e => (.exc e, t.2)
  | .ok (.md m) => (.ok (Option.some m), t.2)
  | .ok .pyFalse => (.ok Option.none, pushLog t.2 .error "getitem_nosuch")
  | .ok .pyNone => (.ok Option.none, pushLog t.2 .error "getitem_error")

/-- `ScriptManager.__contains__` (lines 76-77):
`return self._module(item) is not None`. In Python `False is not None`
evaluates to `True`, so the `pyFalse` (nonexistent-script) outcome also
reports membership. -/
def contains (env : Env) (s : SMState) (item : String) : PyResult Bool × SMState :=
  let t := _module env s item
  match t.1 with
  | .exc e => (.exc e, t.2)
  | .ok (.md _) => (.ok true, t.2)
  | .ok .pyFalse => (.ok true, t.2)
  | .ok .pyNone => (.ok false, t.2)

/-- The body of `call`'s `try`: `getattr(self[filename], func)(*args)`.
`getattr(None, func)` raises `AttributeError`; calling a data attribute
raises `TypeError`. -/
def callTryBody (env : Env) (s : SMState) (filename func : String) (args : List Value) :
    PyResult Value × SMState :=
  let t := getitem env s filename
  match t.1 with
  | .exc e => (.exc e, t.2)
  | .ok g =>
    let looked : PyResult Attr :=
      match g with
      | Option.none => .exc .attrError
      | Option.some m => getattrM m func
    match looked with
    | .exc e => (.exc e, t.2)
    | .ok (.data _) => (.exc .typeError, t.2)
    | .ok (.callable f) => (f args, t.2)

/-- `ScriptManager.call` (lines 89-117): the dispatcher's fault boundary.
`AttributeError` → log "Module not loaded for call", return `None`;
`SystemExit` → log critically, `sys.exit(11)`;
any other exception → log "Error from function", return `None`. -/
def call (env : Env) (s : SMState) (filename func : String) (args : List Value) :
    PyResult Value × SMState :=
  let t := callTryBody env s (normalize_path filename) func args
  match t.1 with
  | .ok v => (.ok v, t.2)
  | .exc .attrError => (.ok .vnone, pushLog t.2 .error "call_notloaded")
  | .exc (.systemExit _) => (.exc (.systemExit 11), pushLog t.2 .critical "call_sysexit")
  | .exc _ => (.ok .vnone, pushLog t.2 .error "call_error")

/-- Does this exception belong to the `SystemExit` class? -/
def Exc.isSystemExit : Exc → Bool
  | .systemExit _ => true
  | _ => false

/-! ### Concrete fixtures used to evaluate the model on closed inputs -/

/-- A fresh manager state: empty cache, empty log. -/
def s0 : SMState := { modules := [], log := [] }

/-- A concrete script module exposing assorted functions and a data
attribute, exercising every branch of the dispatcher. -/
def modA : Module :=
  ⟨[("f", Attr.callable (fun _ => .ok (.vnat 7))),
    ("g", Attr.callable (fun _ => .ok (.vnat 8))),
    ("boom", Attr.callable (fun _ => .exc .other)),
    ("leave", Attr.callable (fun _ => .exc (.systemExit 0))),
    ("ghost", Attr.callable (fun _ => .exc .attrError)),
    ("d", Attr.data (.vnat 3))]⟩

/-- A state whose cache already holds `modA` under the key "a.py". -/
def sCached : SMState := { modules := [("a.py", modA)], log := [] }

/-- Environment where the script file exists, executes to `modA`, and
`APIContext` construction succeeds. -/
def envOk : Env :=
  { worldDir := "world"
    fsExists := fun _ => true
    execScript := fun _ _ => .ok modA
    mkAPIContext := fun p => .ok ⟨p⟩ }

/-- Environment where no file exists. -/
def envNoFs : Env := { envOk with fsExists := fun _ => false }

/-- Environment where the script's top-level code raises an ordinary fault. -/
def envExecFail : Env := { envOk with execScript := fun _ _ => .exc .other }

/-- Environment where the script's top-level code calls `sys.exit()`. -/
def envExecExit : Env := { envOk with execScript := fun _ _ => .exc (.systemExit 3) }

/-- Environment where `APIContext(filename, app)` raises an ordinary fault. -/
def envCtxFail : Env := { envOk with mkAPIContext := fun _ => .exc .other }

/-- Environment where only the concrete location "common/" exists (a `common`
directory on disk) and executing it fails, as executing a directory path
does. -/
def envCommonDir : Env :=
  { envOk with fsExists := fun p => p == "common/", execScript := fun _ _ => .exc .other }

/-! ### Helper lemmas about the embedding -/

theorem normSep_idem (c : Char) : normSep (normSep c) = normSep c := by
  by_cases h : c = '\\' <;> simp [normSep, h]

theorem map_normSep_idem (l : List Char) :
    (l.map normSep).map normSep = l.map normSep := by
  induction l with
  | nil => rfl
  | cons a t ih => simp only [List.map_cons, ih, normSep_idem]

theorem normalize_path_idem (p : String) :
    normalize_path (normalize_path p) = normalize_path p := by
  unfold normalize_path
  exact congrArg String.mk (map_normSep_idem p.toList)

theorem lookupMod_insert_self (l : List (String × Module)) (k : String) (m : Module) :
    lookupMod (insertMod l k m) k = Option.some m := by
  simp [insertMod, lookupMod]

theorem lookupMod_insert_ne (l : List (String × Module)) (k key : String) (m : Module)
    (h : ¬ k = key) : lookupMod (insertMod l k m) key = lookupMod l key := by
  simp [insertMod, lookupMod, h]

/-- `__load` when the resolved location does not exist (lines 153-155). -/
theorem load_notfound (env : Env) (s : SMState) (p : String)
    (h : env.fsExists (resolvePath env.worldDir (normalize_path p)) = false) :
    load env s p = (.ok .pyFalse, pushLog s .error "load_nosuch") := by
  simp [load, h]

/-- `__load` when the script's top-level execution raises an ordinary fault. -/
theorem load_execFault (env : Env) (s : SMState) (p : String) (e : Exc)
    (h1 : env.fsExists (resolvePath env.worldDir (normalize_path p)) = true)
    (h2 : env.execScript (mnameOf (normalize_path p))
            (resolvePath env.worldDir (normalize_path p)) = .exc e)
    (h3 : e.isSystemExit = false) :
    load env s p = (.ok .pyNone, pushLog s .error "load_error") := by
  cases e <;> simp_all [load, Exc.isSystemExit]

/-- `__load` when the script's top-level execution raises `SystemExit`. -/
theorem load_execExit (env : Env) (s : SMState) (p : String) (c : Nat)
    (h1 : env.fsExists (resolvePath env.worldDir (normalize_path p)) = true)
    (h2 : env.execScript (mnameOf (normalize_path p))
            (resolvePath env.worldDir (normalize_path p)) = .exc (.systemExit c)) :
    load env s p = (.exc (.systemExit 11), pushLog s .critical "load_sysexit") := by
  simp [load, h1, h2]

/-- `__load` on full success: the module is cached (first without, then with
its `BXE` handle) and returned. -/
theorem load_success (env : Env) (s : SMState) (p : String) (m : Module) (c : APIContext)
    (h1 : env.fsExists (resolvePath env.worldDir (normalize_path p)) = true)
    (h2 : env.execScript (mnameOf (normalize_path p))
            (resolvePath env.worldDir (normalize_path p)) = .ok m)
    (h3 : env.mkAPIContext (normalize_path p) = .ok c) :
    load env s p =
      (.ok (.md (setAttrM m "BXE" (Attr.data (Value.vctx c)))),
       ⟨insertMod (insertMod s.modules (normalize_path p) m) (normalize_path p)
          (setAttrM m "BXE" (Attr.data (Value.vctx c))),
        (Level.info, "load_loaded") :: s.log⟩) := by
  simp [load, h1, h2, h3, pushLog]

/-- `__load` when the top-level code ran but `APIContext` construction raised
an ordinary fault: the error sentinel is returned, yet the bare module has
already been stored in the cache (line 164 precedes line 165). -/
theorem load_ctxFault (env : Env) (s : SMState) (p : String) (m : Module) (e : Exc)
    (h1 : env.fsExists (resolvePath env.worldDir (normalize_path p)) = true)
    (h2 : env.execScript (mnameOf (normalize_path p))
            (resolvePath env.worldDir (normalize_path p)) = .ok m)
    (h3 : env.mkAPIContext (normalize_path p) = .exc e)
    (h4 : e.isSystemExit = false) :
    load env s p =
      (.ok .pyNone,
       ⟨insertMod s.modules (normalize_path p) m, (Level.error, "load_error") :: s.log⟩) := by
  cases e <;> simp_all [load, Exc.isSystemExit, pushLog]

/-- `__load` when the top-level code ran but `APIContext` construction raised
`SystemExit`: critical log and `sys.exit(11)`, bare module cached. -/
theorem load_ctxExit (env : Env) (s : SMState) (p : String) (m : Module) (c : Nat)
    (h1 : env.fsExists (resolvePath env.worldDir (normalize_path p)) = true)
    (h2 : env.execScript (mnameOf (normalize_path p))
            (resolvePath env.worldDir (normalize_path p)) = .ok m)
    (h3 : env.mkAPIContext (normalize_path p) = .exc (.systemExit c)) :
    load env s p =
      (.exc (.systemExit 11),
       ⟨insertMod s.modules (normalize_path p) m, (Level.critical, "load_sysexit") :: s.log⟩) := by
  simp [load, h1, h2, h3, pushLog]

/-- `_module` on a cache hit: the identical cached module, no state change,
no dependence on the environment. -/
theorem module_cached (env : Env) (s : SMState) (p : String) (m : Module)
    (h : lookupMod s.modules (normalize_path p) = Option.some m) :
    _module env s p = (.ok (.md m), s) := by
  simp [_module, h]

/-- `_module` on a cache miss defers to `__load`. -/
theorem module_uncached (env : Env) (s : SMState) (p : String)
    (h : lookupMod s.modules (normalize_path p) = Option.none) :
    _module env s p = load env s (normalize_path p) := by
  simp [_module, h]

/-- Loading an already-normalized path is the same as loading the raw one. -/
theorem load_normalize (env : Env) (s : SMState) (p : String) :
    load env s (normalize_path p) = load env s p := by
  simp [load, normalize_path_idem]

/-- `__load` touches no cache key other than the one it was asked to load. -/
theorem load_preserves (env : Env) (s : SMState) (q k : String)
    (h : ¬ normalize_path q = k) :
    lookupMod ((load env s q).2).modules k = lookupMod s.modules k := by
  simp only [load]
  split
  · rcases hx : env.execScript (mnameOf (normalize_path q))
        (resolvePath env.worldDir (normalize_path q)) with m0 | e0
    · rcases hc : env.mkAPIContext (normalize_path q) with c0 | e1
      · simp [hx, hc, pushLog, lookupMod_insert_ne, h]
      · cases e1 <;> simp [hx, hc, pushLog, lookupMod_insert_ne, h]
    · cases e0 <;> simp [hx, pushLog]
  · simp [pushLog]

/-- A cache entry survives any `_module` lookup (it is never replaced or
evicted). -/
theorem module_preserves (env : Env) (s : SMState) (q k : String) (m : Module)
    (h : lookupMod s.modules k = Option.some m) :
    lookupMod ((_module env s q).2).modules k = Option.some m := by
  rcases hl : lookupMod s.modules (normalize_path q) with _ | m0
  · rw [module_uncached env s q hl, load_normalize]
    have hne : ¬ normalize_path q = k := by
      intro hk
      rw [hk, h] at hl
      exact Option.noConfusion hl
    rw [load_preserves env s q k hne, h]
  · rw [module_cached env s q m0 hl, h]

/-- `__getitem__` changes the cache exactly as `_module` does. -/
theorem getitem_modules (env : Env) (s : SMState) (it : String) :
    ((getitem env s it).2).modules = ((_module env s it).2).modules := by
  rcases h : (_module env s it).1 with v | e
  · cases v <;> simp [getitem, h, pushLog]
  · simp [getitem, h]

/-- The `try` body of `call` changes the cache exactly as `_module` does. -/
theorem callTryBody_modules (env : Env) (s : SMState) (fn func : String) (args : List Value) :
    ((callTryBody env s fn func args).2).modules = ((_module env s fn).2).modules := by
  rw [← getitem_modules]
  rcases h : (getitem env s fn).1 with g | e
  · rcases g with _ | m
    · simp [callTryBody, h]
    · rcases ha : getattrM m func with a | e2
      · cases a <;> simp [callTryBody, h, ha]
      · simp [callTryBody, h, ha]
  · simp [callTryBody, h]

/-- `call` changes the cache exactly as the underlying `_module` lookup
does (logging aside, the dispatcher never writes the cache itself). -/
theorem call_modules (env : Env) (s : SMState) (p func : String) (args : List Value) :
    ((call env s p func args).2).modules
      = ((_module env s (normalize_path p)).2).modules := by
  rw [← callTryBody_modules env s (normalize_path p) func args]
  rcases h : (callTryBody env s (normalize_path p) func args).1 with v | e
  · simp [call, h]
  · cases e <;> simp [call, h, pushLog]

/-- A cache entry survives any `call` (never replaced or evicted). -/
theorem call_preserves (env : Env) (s : SMState) (q func : String) (args : List Value)
    (k : String) (m : Module) (h : lookupMod s.modules k = Option.some m) :
    lookupMod ((call env s q func args).2).modules k = Option.some m := by
  rw [call_modules]
  exact module_preserves env s (normalize_path q) k m h

/-- `__getitem__` on a cache hit returns the cached module, unchanged state. -/
theorem getitem_cached (env : Env) (s : SMState) (p : String) (m : Module)
    (h : lookupMod s.modules (normalize_path p) = Option.some m) :
    getitem env s p = (.ok (Option.some m), s) := by
  simp [getitem, module_cached env s p m h]

/-- The `try` body of `call` on a cached module with a callable attribute:
it evaluates the function on the arguments in the unchanged state. -/
theorem callTryBody_cached_callable (env : Env) (s : SMState) (p func : String)
    (args : List Value) (m : Module) (f : List Value → PyResult Value)
    (hm : lookupMod s.modules (normalize_path p) = Option.some m)
    (hf : getattrM m func = .ok (.callable f)) :
    callTryBody env s (normalize_path p) func args = (f args, s) := by
  have hm2 : lookupMod s.modules (normalize_path (normalize_path p)) = Option.some m := by
    rw [normalize_path_idem]; exact hm
  simp [callTryBody, getitem_cached env s (normalize_path p) m hm2, hf]

/-- The `try` body of `call` on a cached module lacking the attribute:
`AttributeError`. -/
theorem callTryBody_cached_missing (env : Env) (s : SMState) (p func : String)
    (args : List Value) (m : Module)
    (hm : lookupMod s.modules (normalize_path p) = Option.some m)
    (hf : getattrM m func = .exc .attrError) :
    callTryBody env s (normalize_path p) func args = (.exc .attrError, s) := by
  have hm2 : lookupMod s.modules (normalize_path (normalize_path p)) = Option.some m := by
    rw [normalize_path_idem]; exact hm
  simp [callTryBody, getitem_cached env s (normalize_path p) m hm2, hf]

/-- The `try` body of `call` on a cached module whose attribute is plain
data: calling it raises `TypeError`. -/
theorem callTryBody_cached_data (env : Env) (s : SMState) (p func : String)
    (args : List Value) (m : Module) (v : Value)
    (hm : lookupMod s.modules (normalize_path p) = Option.some m)
    (hf : getattrM m func = .ok (.data v)) :
    callTryBody env s (normalize_path p) func args = (.exc .typeError, s) := by
  have hm2 : lookupMod s.modules (normalize_path (normalize_path p)) = Option.some m := by
    rw [normalize_path_idem]; exact hm
  simp [callTryBody, getitem_cached env s (normalize_path p) m hm2, hf]

theorem charsPrefixOf_append (l r : List Char) : charsPrefixOf l (l ++ r) = true := by
  induction l with
  | nil => rfl
  | cons a t ih => simp [charsPrefixOf, ih]

theorem strStartsWith_append (pre r : String) : strStartsWith (pre ++ r) pre = true := by
  have h : (pre ++ r).toList = pre.toList ++ r.toList := rfl
  unfold strStartsWith
  rw [h]
  exact charsPrefixOf_append _ _

theorem afterFirstSlash_marker (suffix : String) :
    afterFirstSlash ("$COMMON$/" ++ suffix) = suffix := rfl

/-- `call` on a cached module whose function returns normally. -/
theorem call_cached_ok (env : Env) (s : SMState) (p func : String) (args : List Value)
    (m : Module) (f : List Value → PyResult Value) (v : Value)
    (hm : lookupMod s.modules (normalize_path p) = Option.some m)
    (hf : getattrM m func = .ok (.callable f))
    (hv : f args = .ok v) :
    call env s p func args = (.ok v, s) := by
  simp [call, callTryBody_cached_callable env s p func args m f hm hf, hv]

/-- `call` on a cached module whose function raises `SystemExit`. -/
theorem call_cached_exit (env : Env) (s : SMState) (p func : String) (args : List Value)
    (m : Module) (f : List Value → PyResult Value) (c : Nat)
    (hm : lookupMod s.modules (normalize_path p) = Option.some m)
    (hf : getattrM m func = .ok (.callable f))
    (hv : f args = .exc (.systemExit c)) :
    call env s p func args = (.exc (.systemExit 11), pushLog s .critical "call_sysexit") := by
  simp [call, callTryBody_cached_callable env s p func args m f hm hf, hv]

/-- `call` on a cached module whose function raises an ordinary
(non-`SystemExit`) fault: the `None` sentinel, cache untouched. -/
theorem call_cached_fault (env : Env) (s : SMState) (p func : String) (args : List Value)
    (m : Module) (f : List Value → PyResult Value) (e : Exc)
    (hm : lookupMod s.modules (normalize_path p) = Option.some m)
    (hf : getattrM m func = .ok (.callable f))
    (hv : f args = .exc e)
    (hse : e.isSystemExit = false) :
    (call env s p func args).1 = .ok .vnone
    ∧ ((call env s p func args).2).modules = s.modules
    ∧ ((call env s p func args).2).log
        = (Level.error,
            if e = .attrError then "call_notloaded" else "call_error") :: s.log := by
  have hb := callTryBody_cached_callable env s p func args m f hm hf
  cases e <;> simp_all [call, pushLog, Exc.isSystemExit]

/-! ### The claims -/

/-- C1: for every path, function name and argument list, the dispatcher
`call` never propagates an exception other than the intentional-termination
signal (`SystemExit`, escalated as `sys.exit(11)`): its outcome is always
either a returned value or exit status 11; and every non-`SystemExit` fault
raised inside the `try` body is converted to the `None` sentinel. -/
theorem c1_call_fault_containment (env : Env) (s : SMState) (filename func : String)
    (args : List Value) :
    ((∃ v, (call env s filename func args).1 = .ok v)
      ∨ (call env s filename func args).1 = .exc (.systemExit 11))
    ∧ (∀ e, (callTryBody env s (normalize_path filename) func args).1 = .exc e →
        e.isSystemExit = false →
        (call env s filename func args).1 = .ok .vnone) := by
  constructor
  · rcases h : (callTryBody env s (normalize_path filename) func args).1 with v | e
    · exact Or.inl ⟨v, by simp [call, h]⟩
    · cases e with
      | systemExit c => exact Or.inr (by simp [call, h])
      | attrError => exact Or.inl ⟨.vnone, by simp [call, h]⟩
      | typeError => exact Or.inl ⟨.vnone, by simp [call, h]⟩
      | other => exact Or.inl ⟨.vnone, by simp [call, h]⟩
  · intro e he hse
    cases e <;> simp_all [call, Exc.isSystemExit]

/-- Witness for C1 at a concrete input: a cached script whose function
raises an ordinary fault; `call` returns the `None` sentinel. -/
theorem c1_call_fault_containment_witness :
    ((∃ v, (call envOk sCached "a.py" "boom" []).1 = .ok v)
      ∨ (call envOk sCached "a.py" "boom" []).1 = .exc (.systemExit 11))
    ∧ (call envOk sCached "a.py" "boom" []).1 = .ok .vnone := by
  have h := c1_call_fault_containment envOk sCached "a.py" "boom" []
  exact ⟨h.1, h.2 .other rfl rfl⟩

/-- C2: once a path's unit is cached, every later lookup — `_module`,
`__getitem__`, `__contains__` — returns the identical cached module with the
state unchanged (so no re-execution and no I/O, for any environment), `call`
dispatches without altering the cache, and a cache entry is never replaced
or evicted by any later `call`, whatever path it targets. -/
theorem c2_cache_permanence (env : Env) (s : SMState) (p : String) (m : Module)
    (h : lookupMod s.modules (normalize_path p) = Option.some m) :
    _module env s p = (.ok (.md m), s)
    ∧ getitem env s p = (.ok (Option.some m), s)
    ∧ contains env s p = (.ok true, s)
    ∧ (∀ func args, ((call env s p func args).2).modules = s.modules)
    ∧ (∀ q func args,
        lookupMod (((call env s q func args).2).modules) (normalize_path p)
          = Option.some m) := by
  refine ⟨module_cached env s p m h, getitem_cached env s p m h, ?_, ?_, ?_⟩
  · simp [contains, module_cached env s p m h]
  · intro func args
    rw [call_modules]
    rw [module_cached env s (normalize_path p) m (by rw [normalize_path_idem]; exact h)]
  · intro q func args
    exact call_preserves env s q func args (normalize_path p) m h

/-- Witness for C2 at a concrete input: "a.py" is cached as `modA`; lookups
return it unchanged and calls (also on another path) keep the entry. -/
theorem c2_cache_permanence_witness :
    _module envOk sCached "a.py" = (.ok (.md modA), sCached)
    ∧ getitem envOk sCached "a.py" = (.ok (Option.some modA), sCached)
    ∧ contains envOk sCached "a.py" = (.ok true, sCached)
    ∧ ((call envOk sCached "a.py" "f" []).2).modules = sCached.modules
    ∧ lookupMod (((call envOk sCached "b.py" "f" []).2).modules)
        (normalize_path "a.py") = Option.some modA := by
  have h := c2_cache_permanence envOk sCached "a.py" modA rfl
  exact ⟨h.1, h.2.1, h.2.2.1, h.2.2.2.1 "f" [], h.2.2.2.2 "b.py" "f" []⟩

/-- C3 counterexample: the claim says a failed load leaves no cache entry
even when the fault strikes while constructing the context handle; but in
the code the module is stored (line 164) before `APIContext` is constructed
(line 165), so when the constructor raises, the load returns the error
sentinel yet the bare module stays cached. -/
theorem c3_counterexample :
    (load envCtxFail s0 "a.py").1 = .ok .pyNone
    ∧ lookupMod ((load envCtxFail s0 "a.py").2).modules "a.py" = Option.some modA :=
  ⟨rfl, rfl⟩

/-- C3 (amended): a load failing before the script's top-level code has run
(nonexistent location) or during it (execution fault) returns the
corresponding sentinel and writes nothing to the cache; but a fault while
constructing the context handle, after top-level execution, returns the
error sentinel with the bare module already cached. -/
theorem c3_failed_load_caching (env : Env) (s : SMState) (p : String) :
    (env.fsExists (resolvePath env.worldDir (normalize_path p)) = false →
      (load env s p).1 = .ok .pyFalse ∧ ((load env s p).2).modules = s.modules)
    ∧ (∀ e, env.fsExists (resolvePath env.worldDir (normalize_path p)) = true →
        env.execScript (mnameOf (normalize_path p))
          (resolvePath env.worldDir (normalize_path p)) = .exc e →
        e.isSystemExit = false →
        (load env s p).1 = .ok .pyNone ∧ ((load env s p).2).modules = s.modules)
    ∧ (∀ m e, env.fsExists (resolvePath env.worldDir (normalize_path p)) = true →
        env.execScript (mnameOf (normalize_path p))
          (resolvePath env.worldDir (normalize_path p)) = .ok m →
        env.mkAPIContext (normalize_path p) = .exc e →
        e.isSystemExit = false →
        (load env s p).1 = .ok .pyNone
        ∧ lookupMod ((load env s p).2).modules (normalize_path p)
            = Option.some m) := by
  refine ⟨?_, ?_, ?_⟩
  · intro h
    rw [load_notfound env s p h]
    exact ⟨rfl, rfl⟩
  · intro e h1 h2 h3
    rw [load_execFault env s p e h1 h2 h3]
    exact ⟨rfl, rfl⟩
  · intro m e h1 h2 h3 h4
    rw [load_ctxFault env s p m e h1 h2 h3 h4]
    exact ⟨rfl, lookupMod_insert_self _ _ _⟩

/-- Witness for C3 (amended) at concrete inputs: the three failure shapes
of `__load` on an empty cache. -/
theorem c3_failed_load_caching_witness :
    ((load envNoFs s0 "a.py").1 = .ok .pyFalse
      ∧ ((load envNoFs s0 "a.py").2).modules = s0.modules)
    ∧ ((load envExecFail s0 "a.py").1 = .ok .pyNone
      ∧ ((load envExecFail s0 "a.py").2).modules = s0.modules)
    ∧ ((load envCtxFail s0 "a.py").1 = .ok .pyNone
      ∧ lookupMod ((load envCtxFail s0 "a.py").2).modules (normalize_path "a.py")
          = Option.some modA) :=
  ⟨(c3_failed_load_caching envNoFs s0 "a.py").1 rfl,
   (c3_failed_load_caching envExecFail s0 "a.py").2.1 .other rfl rfl rfl,
   (c3_failed_load_caching envCtxFail s0 "a.py").2.2 modA .other rfl rfl rfl rfl⟩

/-- C4: `SystemExit` raised by a script — at load time during top-level
execution, or at call time inside the dispatched function — is logged at
critical severity and escalated to process termination with the same fixed
status 11 in both places; it is never converted to a contained sentinel. -/
theorem c4_sysexit_fatal_both_places (env : Env) (s : SMState) (p func : String)
    (args : List Value) (c c' : Nat) (m : Module) (f : List Value → PyResult Value) :
    (env.fsExists (resolvePath env.worldDir (normalize_path p)) = true →
      env.execScript (mnameOf (normalize_path p))
        (resolvePath env.worldDir (normalize_path p)) = .exc (.systemExit c) →
      (load env s p).1 = .exc (.systemExit 11)
      ∧ ((load env s p).2).log = (Level.critical, "load_sysexit") :: s.log)
    ∧ (lookupMod s.modules (normalize_path p) = Option.some m →
        getattrM m func = .ok (.callable f) →
        f args = .exc (.systemExit c') →
        (call env s p func args).1 = .exc (.systemExit 11)
        ∧ ((call env s p func args).2).log
            = (Level.critical, "call_sysexit") :: s.log) := by
  constructor
  · intro h1 h2
    rw [load_execExit env s p c h1 h2]
    exact ⟨rfl, rfl⟩
  · intro hm hf hv
    rw [call_cached_exit env s p func args m f c' hm hf hv]
    exact ⟨rfl, rfl⟩

/-- Witness for C4 at concrete inputs: a script whose top-level code calls
`sys.exit(3)` at load time, and a cached function calling `sys.exit(0)` at
call time; both end in critical log plus exit status 11. -/
theorem c4_sysexit_fatal_both_places_witness :
    ((load envExecExit s0 "a.py").1 = .exc (.systemExit 11)
      ∧ ((load envExecExit s0 "a.py").2).log = (Level.critical, "load_sysexit") :: s0.log)
    ∧ ((call envOk sCached "a.py" "leave" []).1 = .exc (.systemExit 11)
      ∧ ((call envOk sCached "a.py" "leave" []).2).log
          = (Level.critical, "call_sysexit") :: sCached.log) :=
  ⟨(c4_sysexit_fatal_both_places envExecExit s0 "a.py" "leave" [] 3 0 modA
      (fun _ => .exc (.systemExit 0))).1 rfl rfl,
   (c4_sysexit_fatal_both_places envOk sCached "a.py" "leave" [] 3 0 modA
      (fun _ => .exc (.systemExit 0))).2 rfl rfl rfl⟩

/-- C5: the claim says the membership probe (`p in manager`) returns `False`
when `p`'s concrete location does not exist; but `__contains__` is
`self._module(item) is not None`, and `_module` reports nonexistence with
Python `False`, for which `False is not None` is `True` — so on a fresh
manager with no file on disk the probe answers `True` even though no usable
unit exists (`_module` returned the nonexistent sentinel and `call` on the
same state would fail with "Module not loaded"). -/
theorem c5_contains_nonexistent_bug :
    (_module envNoFs s0 "missing.py").1 = .ok .pyFalse
    ∧ (contains envNoFs s0 "missing.py").1 = .ok true
    ∧ (call envNoFs s0 "missing.py" "f" []).1 = .ok .vnone
    ∧ ((call envNoFs s0 "missing.py" "f" []).2).log.head?
        = Option.some (Level.error, "call_notloaded") :=
  ⟨rfl, rfl, rfl, rfl⟩

/-- C6: loading a not-previously-loaded path whose concrete location does
not exist returns the `False` (NotFound) sentinel, logs at error severity,
and writes nothing to the cache; a later load of the same path, once the
location exists and the script executes, returns the loaded unit with its
context handle attached — non-existence is never cached. -/
theorem c6_notfound_retryable (env : Env) (s : SMState) (p : String)
    (h0 : lookupMod s.modules (normalize_path p) = Option.none)
    (h : env.fsExists (resolvePath env.worldDir (normalize_path p)) = false) :
    _module env s p = (.ok .pyFalse, pushLog s .error "load_nosuch")
    ∧ (∀ env2 m c,
        env2.fsExists (resolvePath env2.worldDir (normalize_path p)) = true →
        env2.execScript (mnameOf (normalize_path p))
          (resolvePath env2.worldDir (normalize_path p)) = .ok m →
        env2.mkAPIContext (normalize_path p) = .ok c →
        (_module env2 (pushLog s .error "load_nosuch") p).1
          = .ok (.md (setAttrM m "BXE" (Attr.data (Value.vctx c))))
        ∧ lookupMod ((_module env2 (pushLog s .error "load_nosuch") p).2).modules
            (normalize_path p)
          = Option.some (setAttrM m "BXE" (Attr.data (Value.vctx c)))) := by
  constructor
  · rw [module_uncached env s p h0, load_normalize, load_notfound env s p h]
  · intro env2 m c h1 h2 h3
    have h0' : lookupMod (pushLog s .error "load_nosuch").modules (normalize_path p)
        = Option.none := h0
    rw [module_uncached env2 _ p h0', load_normalize,
      load_success env2 _ p m c h1 h2 h3]
    refine ⟨rfl, ?_⟩
    exact lookupMod_insert_self _ _ _

/-- Witness for C6 at a concrete input: "a.py" is absent under `envNoFs`,
then present and executable under `envOk`. -/
theorem c6_notfound_retryable_witness :
    _module envNoFs s0 "a.py" = (.ok .pyFalse, pushLog s0 .error "load_nosuch")
    ∧ (_module envOk (pushLog s0 .error "load_nosuch") "a.py").1
        = .ok (.md (setAttrM modA "BXE" (Attr.data (Value.vctx ⟨normalize_path "a.py"⟩))))
    ∧ lookupMod ((_module envOk (pushLog s0 .error "load_nosuch") "a.py").2).modules
        (normalize_path "a.py")
      = Option.some (setAttrM modA "BXE" (Attr.data (Value.vctx ⟨normalize_path "a.py"⟩))) := by
  have h := c6_notfound_retryable envNoFs s0 "a.py" rfl rfl
  have h2 := h.2 envOk modA ⟨normalize_path "a.py"⟩ rfl rfl rfl
  exact ⟨h.1, h2.1, h2.2⟩

/-- C7 counterexample: the claim says that on the malformed input
`$COMMON$/` (the marker with no remainder) the subsequent load "simply
fails as not-found"; but the resolved location is the shared root
`common/` itself, and when that directory exists on disk
(`os.path.exists` is true for directories) the load proceeds, fails while
building the module, and returns the `None` (LoadError) sentinel — not the
`False` (NotFound) sentinel. -/
theorem c7_counterexample :
    (load envCommonDir s0 "$COMMON$/").1 = .ok .pyNone
    ∧ ¬ (load envCommonDir s0 "$COMMON$/").1 = .ok .pyFalse :=
  ⟨rfl, fun h => MValue.noConfusion (PyResult.ok.inj h)⟩

/-- C7 (amended): a `$COMMON$/`-prefixed logical path resolves to the
shared root "common/" joined with the remainder after the marker, any other
path resolves to the active world's directory joined with the path, and
whenever the world directory is not itself named "common" the same relative
suffix routes to two distinct concrete locations; on the malformed input
consisting of the marker with no remainder the resolver does not crash but
yields the location "common/", and the subsequent load fails as not-found
exactly when that location does not exist (if it exists, the load fails
with the LoadError sentinel instead, as the counterexample shows). -/
theorem c7_path_resolution (wd : String) (env : Env) (s : SMState) (suffix p : String) :
    resolvePath wd ("$COMMON$/" ++ suffix) = "common/" ++ suffix
    ∧ (strStartsWith p "$COMMON$/" = false → resolvePath wd p = wd ++ "/" ++ p)
    ∧ (¬ wd = "common" → strStartsWith suffix "$COMMON$/" = false →
        ¬ resolvePath wd ("$COMMON$/" ++ suffix) = resolvePath wd suffix)
    ∧ resolvePath wd "$COMMON$/" = "common/"
    ∧ (env.fsExists "common/" = false →
        load env s "$COMMON$/" = (.ok .pyFalse, pushLog s .error "load_nosuch")) := by
  have ha : resolvePath wd ("$COMMON$/" ++ suffix) = "common/" ++ suffix := by
    simp [resolvePath, strStartsWith_append, afterFirstSlash_marker]
  have hb : ∀ q : String, strStartsWith q "$COMMON$/" = false →
      resolvePath wd q = wd ++ "/" ++ q := by
    intro q hq
    simp [resolvePath, hq]
  refine ⟨ha, hb p, ?_, rfl, ?_⟩
  · intro hwd hsuf h
    rw [ha, hb suffix hsuf] at h
    have hdata : ("common/" ++ suffix).data = ((wd ++ "/") ++ suffix).data :=
      congrArg String.data h
    have h1 : "common/".data ++ suffix.data = (wd ++ "/").data ++ suffix.data := hdata
    have h2 : "common/".data = (wd ++ "/").data := List.append_cancel_right h1
    have h3 : "common".data ++ "/".data = wd.data ++ "/".data := h2
    have h4 : "common".data = wd.data := List.append_cancel_right h3
    exact hwd (congrArg String.mk h4.symm)
  · intro hfs
    exact load_notfound env s "$COMMON$/" hfs

/-- Witness for C7 (amended) at concrete inputs: the shared and world roots
route the same suffix to distinct locations, and the malformed marker path
is reported not-found when "common/" does not exist. -/
theorem c7_path_resolution_witness :
    resolvePath "world" ("$COMMON$/" ++ "foo.py") = "common/" ++ "foo.py"
    ∧ resolvePath "world" "bar.py" = "world" ++ "/" ++ "bar.py"
    ∧ ¬ resolvePath "world" ("$COMMON$/" ++ "foo.py") = resolvePath "world" "foo.py"
    ∧ resolvePath "world" "$COMMON$/" = "common/"
    ∧ load envNoFs s0 "$COMMON$/" = (.ok .pyFalse, pushLog s0 .error "load_nosuch") := by
  have h := c7_path_resolution "world" envNoFs s0 "foo.py" "bar.py"
  exact ⟨h.1, h.2.1 rfl, h.2.2.1 (by decide) rfl, h.2.2.2.1, h.2.2.2.2 rfl⟩

/-- C8: a `call` whose dispatched function raises a non-termination fault
returns the `None` sentinel and leaves the cache and the unit unchanged —
the path's entry is still present and identical — and a subsequent `call`
to another, well-behaved function on the same unit still succeeds. -/
theorem c8_callerror_frame (env : Env) (s : SMState) (p func : String)
    (args : List Value) (m : Module) (f : List Value → PyResult Value) (e : Exc)
    (hm : lookupMod s.modules (normalize_path p) = Option.some m)
    (hf : getattrM m func = .ok (.callable f))
    (hv : f args = .exc e)
    (hse : e.isSystemExit = false) :
    (call env s p func args).1 = .ok .vnone
    ∧ ((call env s p func args).2).modules = s.modules
    ∧ lookupMod ((call env s p func args).2).modules (normalize_path p)
        = Option.some m
    ∧ (∀ gname args2 g v, getattrM m gname = .ok (.callable g) → g args2 = .ok v →
        (call env ((call env s p func args).2) p gname args2).1 = .ok v) := by
  have hc := call_cached_fault env s p func args m f e hm hf hv hse
  refine ⟨hc.1, hc.2.1, ?_, ?_⟩
  · rw [hc.2.1]; exact hm
  · intro gname args2 g v hg hgv
    have hm2 : lookupMod ((call env s p func args).2).modules (normalize_path p)
        = Option.some m := by rw [hc.2.1]; exact hm
    rw [call_cached_ok env _ p gname args2 m g v hm2 hg hgv]

/-- Witness for C8 at a concrete input: "boom" raises an ordinary fault, a
following call to "g" on the same cached unit returns its value. -/
theorem c8_callerror_frame_witness :
    (call envOk sCached "a.py" "boom" []).1 = .ok .vnone
    ∧ ((call envOk sCached "a.py" "boom" []).2).modules = sCached.modules
    ∧ lookupMod ((call envOk sCached "a.py" "boom" []).2).modules
        (normalize_path "a.py") = Option.some modA
    ∧ (call envOk ((call envOk sCached "a.py" "boom" []).2) "a.py" "g" []).1
        = .ok (.vnat 8) := by
  have h := c8_callerror_frame envOk sCached "a.py" "boom" [] modA
    (fun _ => .exc .other) .other rfl rfl rfl rfl
  exact ⟨h.1, h.2.1, h.2.2.1, h.2.2.2 "g" [] (fun _ => .ok (.vnat 8)) (.vnat 8) rfl rfl⟩

/-- C9 counterexample: the claim says a non-callable (data) attribute is
reported through the attribute-error branch ("Module not loaded for call",
the NotLoaded class) like a missing function; but calling a data attribute
raises `TypeError`, which the bare `except` catches — logging "Error from
function" (the CallError class) — while a genuinely missing attribute logs
"Module not loaded for call": the two cases are not merged. -/
theorem c9_counterexample :
    (call envOk sCached "a.py" "d" []).1 = .ok .vnone
    ∧ ((call envOk sCached "a.py" "d" []).2).log = [(Level.error, "call_error")]
    ∧ ((call envOk sCached "a.py" "nope" []).2).log = [(Level.error, "call_notloaded")]
    ∧ ¬ ("call_error" : String) = "call_notloaded" :=
  ⟨rfl, rfl, rfl, by decide⟩

/-- C9 (amended): calling an attribute that exists on the cached unit but is
not callable returns `None`, but it is reported through the generic fault
branch of `call` (the CallError-class log "Error from function"), not the
attribute-error/NotLoaded branch; the cache is unchanged. -/
theorem c9_data_attribute_is_callerror (env : Env) (s : SMState) (p func : String)
    (args : List Value) (m : Module) (v : Value)
    (hm : lookupMod s.modules (normalize_path p) = Option.some m)
    (hf : getattrM m func = .ok (.data v)) :
    (call env s p func args).1 = .ok .vnone
    ∧ ((call env s p func args).2).log = (Level.error, "call_error") :: s.log
    ∧ ((call env s p func args).2).modules = s.modules := by
  have hb := callTryBody_cached_data env s p func args m v hm hf
  refine ⟨?_, ?_, ?_⟩ <;> simp [call, hb, pushLog]

/-- Witness for C9 (amended) at a concrete input: the data attribute "d" of
the cached unit. -/
theorem c9_data_attribute_is_callerror_witness :
    (call envOk sCached "a.py" "d" []).1 = .ok .vnone
    ∧ ((call envOk sCached "a.py" "d" []).2).log
        = (Level.error, "call_error") :: sCached.log
    ∧ ((call envOk sCached "a.py" "d" []).2).modules = sCached.modules :=
  c9_data_attribute_is_callerror envOk sCached "a.py" "d" [] modA (.vnat 3) rfl rfl

/-- C10: when the dispatched function exists and is callable but raises
`AttributeError` from inside its body, `call` takes the attribute-error
branch — logging the NotLoaded-class message "Module not loaded for call"
rather than the CallError-class "Error from function" — and returns `None`,
exactly as it does for a function that is missing altogether. -/
theorem c10_attrerror_indistinguishable (env : Env) (s : SMState) (p func gname : String)
    (args : List Value) (m : Module) (f : List Value → PyResult Value)
    (hm : lookupMod s.modules (normalize_path p) = Option.some m)
    (hf : getattrM m func = .ok (.callable f))
    (hv : f args = .exc .attrError)
    (hg : getattrM m gname = .exc .attrError) :
    ((call env s p func args).1 = .ok .vnone
      ∧ ((call env s p func args).2).log
          = (Level.error, "call_notloaded") :: s.log)
    ∧ ((call env s p gname args).1 = .ok .vnone
      ∧ ((call env s p gname args).2).log
          = (Level.error, "call_notloaded") :: s.log) := by
  constructor
  · have hb := callTryBody_cached_callable env s p func args m f hm hf
    constructor <;> simp [call, hb, hv, pushLog]
  · have hb := callTryBody_cached_missing env s p gname args m hm hg
    constructor <;> simp [call, hb, pushLog]

/-- Witness for C10 at a concrete input: "ghost" raises `AttributeError`
inside its body, "nope" does not exist; both log "Module not loaded for
call" and return `None`. -/
theorem c10_attrerror_indistinguishable_witness :
    ((call envOk sCached "a.py" "ghost" []).1 = .ok .vnone
      ∧ ((call envOk sCached "a.py" "ghost" []).2).log
          = (Level.error, "call_notloaded") :: sCached.log)
    ∧ ((call envOk sCached "a.py" "nope" []).1 = .ok .vnone
      ∧ ((call envOk sCached "a.py" "nope" []).2).log
          = (Level.error, "call_notloaded") :: sCached.log) :=
  c10_attrerror_indistinguishable envOk sCached "a.py" "ghost" "nope" [] modA
    (fun _ => .exc .attrError) rfl rfl rfl rfl

end BXE
